import Mathlib

/-!
Verification development for the VoiceAgent backend
(`server/app/config.py`, `server/app/models.py`, `server/app/main.py`).

The Python service is shallowly embedded: pure functions become Lean
functions; the handler's process-wide state (`token_store`, `booked_slots`)
is passed and returned explicitly; Python exceptions become `Except`
results; third-party library behaviour (the stdlib JSON parser, the
`email-validator` package behind `EmailStr`, the `pytz` zone database, the
Google calendar provider, and the wall clock) is abstracted as an
environment of oracles, since that code is not part of the repository.
-/

/-! ## String helpers (kernel-reducible replacements for stdlib routines) -/

/-- `leadsWith pre l` is true when `pre` is an initial segment of `l`. -/
def leadsWith : List Char → List Char → Bool
  | [], _ => true
  | _ :: _, [] => false
  | a :: as, b :: bs => a == b && leadsWith as bs

/-- `occursIn needle hay` is true when `needle` occurs contiguously in `hay`.
Models Python's `needle in hay` on strings. -/
def occursIn : List Char → List Char → Bool
  | needle, [] => needle.isEmpty
  | needle, c :: t => leadsWith needle (c :: t) || occursIn needle t

/-- Python `sub in hay` for strings. -/
def strHas (hay sub : String) : Bool :=
  occursIn sub.data hay.data

/-- Python `str.lower()` (ASCII letters; all strings this development
compares are ASCII). -/
def strLower (s : String) : String :=
  String.mk (s.data.map Char.toLower)

/-- Python `sep.join(parts)`. -/
def strJoin (sep : String) : List String → String
  | [] => ""
  | [s] => s
  | s :: t :: rest => s ++ sep ++ strJoin sep (t :: rest)

/-- Split a character list on a separator character (used to model the
fixed-format `strptime` patterns `%Y-%m-%d` and `%H:%M`). -/
def splitOnChar (sep : Char) : List Char → List (List Char)
  | [] => [[]]
  | c :: t =>
    let r := splitOnChar sep t
    if c == sep then [] :: r
    else
      match r with
      | h :: t' => (c :: h) :: t'
      | [] => [[c]]

/-- Value of a list of decimal digit characters. -/
def natFromDigits (l : List Char) : Nat :=
  l.foldl (fun a c => a * 10 + (c.toNat - 48)) 0

/-- Nonempty and all ASCII decimal digits (the `\d+` pieces of the
`strptime` patterns). -/
def allDigits (l : List Char) : Bool :=
  !l.isEmpty && l.all Char.isDigit

/-! ## Calendar dates (`datetime.date`) -/

structure Date where
  year : Nat
  month : Nat
  day : Nat
deriving DecidableEq, Repr

/-- Gregorian leap year, as in `datetime`. -/
def isLeap (y : Nat) : Bool :=
  (y % 4 == 0 && y % 100 != 0) || y % 400 == 0

def daysInMonth (y m : Nat) : Nat :=
  if m == 2 then (if isLeap y then 29 else 28)
  else if m == 4 || m == 6 || m == 9 || m == 11 then 30
  else 31

/-- Python `date` comparison (lexicographic on year, month, day). -/
def Date.lt (a b : Date) : Bool :=
  a.year < b.year ||
    (a.year == b.year &&
      (a.month < b.month || (a.month == b.month && a.day < b.day)))

/-- `datetime.strptime(v, "%Y-%m-%d").date()`: the `strptime` pattern
accepts one to four digits for `%Y` and one or two digits for `%m`/`%d`,
requires the whole string to be consumed, and `datetime` then requires
year ≥ 1, month 1–12 and a day valid for that month.  Returns `none` where
Python raises `ValueError`. -/
def parseDate (s : String) : Option Date :=
  match splitOnChar '-' s.data with
  | [ys, ms, ds] =>
    if allDigits ys && ys.length ≤ 4 && allDigits ms && ms.length ≤ 2 &&
        allDigits ds && ds.length ≤ 2 then
      let y := natFromDigits ys
      let m := natFromDigits ms
      let d := natFromDigits ds
      if 1 ≤ y && 1 ≤ m && m ≤ 12 && 1 ≤ d && d ≤ daysInMonth y m then
        some ⟨y, m, d⟩
      else none
    else none
  | _ => none

/-- `datetime.strptime(v, "%H:%M")`: hour 0–23 and minute 0–59, each one
or two digits.  Returns `none` where Python raises `ValueError`. -/
def parseTime (s : String) : Option (Nat × Nat) :=
  match splitOnChar ':' s.data with
  | [hs, ms] =>
    if allDigits hs && hs.length ≤ 2 && allDigits ms && ms.length ≤ 2 then
      let h := natFromDigits hs
      let m := natFromDigits ms
      if h ≤ 23 && m ≤ 59 then some (h, m) else none
    else none
  | _ => none

/-- Successor calendar day. -/
def nextDay (d : Date) : Date :=
  if d.day < daysInMonth d.year d.month then ⟨d.year, d.month, d.day + 1⟩
  else if d.month < 12 then ⟨d.year, d.month + 1, 1⟩
  else ⟨d.year + 1, 1, 1⟩

def addDays : Date → Nat → Date
  | d, 0 => d
  | d, Nat.succ k => addDays (nextDay d) k

/-- `start_dt + timedelta(minutes=duration)` on a wall-clock instant given
as a date plus minutes past midnight (pytz-localized datetimes add
`timedelta` on the wall clock without renormalisation).  Durations reaching
this point are the validated 15–480 range, hence nonnegative. -/
def addMinutes (d : Date) (startMin : Nat) (dur : Int) : Date × Nat :=
  let total := startMin + dur.toNat
  (addDays d (total / 1440), total % 1440)

/-! ## `server/app/config.py` -/

/-- The environment-derived settings inspected by `validate_config`.
`os.getenv` yields `None` for an absent variable and the check is Python
falsiness, so an absent-or-empty setting is modelled as `""`. -/
structure Config where
  VAPI_API_KEY : String
  VAPI_API_PUBLIC_KEY : String
  GOOGLE_CLIENT_ID : String
  GOOGLE_CLIENT_SECRET : String
  GOOGLE_REDIRECT_URI : String
  YOUR_EMAIL : String
  BACKEND_URL : String
deriving DecidableEq, Repr

/-- The `required_vars` pair list of `validate_config`. -/
def required_vars (c : Config) : List (String × String) :=
  [("VAPI_API_KEY", c.VAPI_API_KEY),
   ("VAPI_API_PUBLIC_KEY", c.VAPI_API_PUBLIC_KEY),
   ("GOOGLE_CLIENT_ID", c.GOOGLE_CLIENT_ID),
   ("GOOGLE_CLIENT_SECRET", c.GOOGLE_CLIENT_SECRET),
   ("GOOGLE_REDIRECT_URI", c.GOOGLE_REDIRECT_URI),
   ("YOUR_EMAIL", c.YOUR_EMAIL),
   ("BACKEND_URL", c.BACKEND_URL)]

/-- The names of the required settings that are absent/empty. -/
def missing_names (c : Config) : List String :=
  (required_vars c).filterMap (fun p => if p.2 == "" then some p.1 else none)

/-- `config.validate_config()`: in production mode collect one error line
per missing required setting and raise a single `ValueError` listing all of
them; in any other mode the error list stays empty and nothing is raised. -/
def validate_config (ENVIRONMENT : String) (c : Config) : Except String Unit :=
  let errors : List String :=
    if ENVIRONMENT == "production" then
      (required_vars c).filterMap
        (fun p =>
          if p.2 == "" then
            some ("Missing required environment variable: " ++ p.1)
          else none)
    else []
  if errors.isEmpty then .ok ()
  else .error ("Configuration validation failed:\n" ++ strJoin "\n" errors)

/-! ## JSON values and Python container semantics

`json.loads` yields `None`/`bool`/numbers/`str`/`list`/`dict`; the handler
then drives them with `in`, subscripting, truthiness and `dict.get`.
(JSON floats are irrelevant to every claim and are not modelled.) -/

inductive Json where
  | null
  | bool (b : Bool)
  | num (n : Int)
  | str (s : String)
  | arr (elems : List Json)
  | obj (fields : List (String × Json))

/-- Python truthiness (`bool(v)`). -/
def Json.isTruthy : Json → Bool
  | .null => false
  | .bool b => b
  | .num n => n != 0
  | .str s => s != ""
  | .arr xs => !xs.isEmpty
  | .obj fs => !fs.isEmpty

/-- Python `v == k` for a string `k` (cross-type equality is `False`). -/
def Json.eqStr (v : Json) (k : String) : Bool :=
  match v with
  | .str s => s == k
  | _ => false

/-- Pure `dict.get(k, default)` on an object (used only where the receiver
is known to be a dict). -/
def Json.getD : Json → String → Json → Json
  | .obj fs, k, dflt =>
    match fs.find? (fun p => p.1 == k) with
    | some p => p.2
    | none => dflt
  | _, _, dflt => dflt

/-- Python exceptions distinguished by the tool handler's `except` clauses:
`ValueError` (also pydantic's `ValidationError` and `json.JSONDecodeError`),
FastAPI's `HTTPException`, and everything else (`TypeError`,
`AttributeError`, `KeyError`, `IndexError`, ... — all answered by the
catch-all clause). -/
inductive PyErr where
  | valueError (msg : String)
  | httpException (status_code : Nat) (detail : String)
  | exception
deriving DecidableEq, Repr

/-- Python `k in v`: key test on dicts, membership on lists, substring on
strings; `TypeError` otherwise. -/
def pyIn (k : String) (v : Json) : Except PyErr Bool :=
  match v with
  | .obj fs => .ok (fs.any (fun p => p.1 == k))
  | .arr xs => .ok (xs.any (fun e => e.eqStr k))
  | .str s => .ok (strHas s k)
  | _ => .error .exception

/-- Python `v[k]` with a string key: dict lookup (`KeyError` when absent);
`TypeError` on lists/strings/others. -/
def pySubscript (v : Json) (k : String) : Except PyErr Json :=
  match v with
  | .obj fs =>
    match fs.find? (fun p => p.1 == k) with
    | some p => .ok p.2
    | none => .error .exception
  | _ => .error .exception

/-- Python `v[0]`: list head (`IndexError` when empty), first character of
a string, error otherwise. -/
def pySub0 (v : Json) : Except PyErr Json :=
  match v with
  | .arr (x :: _) => .ok x
  | .str s => if s.isEmpty then .error .exception else .ok (.str (s.take 1))
  | _ => .error .exception

/-- Python `v.get(k, default)`: only dicts have `.get`
(`AttributeError` otherwise). -/
def Json.pyGet (v : Json) (k : String) (dflt : Json) : Except PyErr Json :=
  match v with
  | .obj fs => .ok (Json.getD (.obj fs) k dflt)
  | _ => .error .exception

/-! ## External-world oracles

Everything the service consults outside its own code: the stdlib JSON
parser, the `EmailStr` validator, the `pytz` zone database, the wall clock,
the configured settings it imports, and the calendar provider's reply to
`events().insert(...).execute()`. -/

/-- Outcome of the one calendar-provider call: a created event (its `id`
and `htmlLink`) or a `googleapiclient` `HttpError` with its text. -/
inductive ProviderResult where
  | ok (eventId htmlLink : String)
  | httpError (errText : String)
deriving DecidableEq, Repr

structure Env where
  /-- `json.loads`; `none` models a raised `json.JSONDecodeError`. -/
  jsonLoads : String → Option Json
  /-- the `email-validator` check behind pydantic's `EmailStr`. -/
  emailOk : String → Bool
  /-- `pytz.timezone` resolution (IANA database membership). -/
  tzOk : String → Bool
  /-- `datetime.now().date()`. -/
  today : Date
  /-- `datetime.utcnow().isoformat()`. -/
  nowIso : String
  /-- the calendar provider's response to the insert call. -/
  provider : ProviderResult
  /-- `config.DEFAULT_TIMEZONE`. -/
  DEFAULT_TIMEZONE : String
  /-- `config.YOUR_EMAIL`. -/
  YOUR_EMAIL : String

/-! ## `server/app/models.py` — `AppointmentDetails` -/

structure AppointmentDetails where
  name : String
  phone : String
  email : String
  date : String
  time : String
  purpose : Option String
  timezone : String
  duration_minutes : Int
deriving DecidableEq, Repr

/-- The `validate_phone` regex `^[\d\s\-\+\(\)]{10,20}$` applied to
`str(v)`. -/
def phonePattern (s : String) : Bool :=
  decide (10 ≤ s.length) && decide (s.length ≤ 20) &&
    s.data.all (fun c =>
      c.isDigit || c.isWhitespace || c == '-' || c == '+' || c == '(' || c == ')')

/-- `AppointmentDetails.validate_phone`. -/
def validate_phone (v : String) : Except String String :=
  if phonePattern v then .ok v else .error "Invalid phone format"

/-- `AppointmentDetails.validate_date`.  NOTE the faithful quirk: the
`raise ValueError("Date must be in the future")` sits inside the same
`try` whose `except ValueError` re-raises the format message, so a
well-formed past date also surfaces "Date must be in YYYY-MM-DD format". -/
def validate_date (today : Date) (v : String) : Except String String :=
  match parseDate v with
  | some d =>
    if Date.lt d today then .error "Date must be in YYYY-MM-DD format"
    else .ok v
  | none => .error "Date must be in YYYY-MM-DD format"

/-- `AppointmentDetails.validate_time`. -/
def validate_time (v : String) : Except String String :=
  match parseTime v with
  | some _ => .ok v
  | none => .error "Time must be in HH:MM format (24-hour)"

/-- `AppointmentDetails.validate_timezone` (`pytz.timezone` via the
oracle). -/
def validate_timezone (env : Env) (v : String) : Except String String :=
  if env.tzOk v then .ok v else .error ("Invalid timezone: " ++ v)

/-- Turn one field's result into its contribution to the collected
validation-error list. -/
def fieldErr {α : Type} (f : String) : Except String α → List (String × String)
  | .ok _ => []
  | .error m => [(f, m)]

/-- Constructing `AppointmentDetails(...)`: pydantic v2 validates the
fields in declaration order, collects every failing field into one
`ValidationError` (a `ValueError`), and does not validate declared
defaults.  `purpose`, `timezone` and `duration_minutes` are `none` when
the constructor argument is omitted (the model's own default path: the
field defaults "Discovery Session", `DEFAULT_TIMEZONE` and `30`).
Pydantic's union/coercion behaviour is external library code; it is
embedded to the extent the spec describes it (`phone` text-or-numeric,
`duration_minutes` integer or numeric text in 15–480). -/
def AppointmentDetails.validate (env : Env) (name phone email date time : Json)
    (purpose timezone duration_minutes : Option Json) :
    Except (List (String × String)) AppointmentDetails :=
  let nameR : Except String String :=
    match name with
    | .str s =>
      if s.length < 2 then .error "String should have at least 2 characters"
      else if 100 < s.length then .error "String should have at most 100 characters"
      else .ok s
    | _ => .error "Input should be a valid string"
  let phoneR : Except String String :=
    match phone with
    | .str s =>
      if s.length < 5 then .error "String should have at least 5 characters"
      else if 20 < s.length then .error "String should have at most 20 characters"
      else validate_phone s
    | .num n => validate_phone (toString n)
    | _ => .error "Input should be a valid string"
  let emailR : Except String String :=
    match email with
    | .str s =>
      if env.emailOk s then .ok s
      else .error "value is not a valid email address"
    | _ => .error "Input should be a valid string"
  let dateR : Except String String :=
    match date with
    | .str s => validate_date env.today s
    | _ => .error "Input should be a valid string"
  let timeR : Except String String :=
    match time with
    | .str s => validate_time s
    | _ => .error "Input should be a valid string"
  let purposeR : Except String (Option String) :=
    match purpose with
    | none => .ok (some "Discovery Session")
    | some .null => .ok none
    | some (.str s) =>
      if 200 < s.length then .error "String should have at most 200 characters"
      else .ok (some s)
    | some _ => .error "Input should be a valid string"
  let timezoneR : Except String String :=
    match timezone with
    | none => .ok env.DEFAULT_TIMEZONE
    | some (.str s) => validate_timezone env s
    | some _ => .error "Input should be a valid string"
  let durationR : Except String Int :=
    match duration_minutes with
    | none => .ok 30
    | some (.num n) =>
      if n < 15 then .error "Input should be greater than or equal to 15"
      else if 480 < n then .error "Input should be less than or equal to 480"
      else .ok n
    | some (.str s) =>
      match s.toInt? with
      | some n =>
        if n < 15 then .error "Input should be greater than or equal to 15"
        else if 480 < n then .error "Input should be less than or equal to 480"
        else .ok n
      | none => .error "Input should be a valid integer"
    | some _ => .error "Input should be a valid integer"
  match nameR, phoneR, emailR, dateR, timeR, purposeR, timezoneR, durationR with
  | .ok n, .ok p, .ok e, .ok d, .ok t, .ok pu, .ok tz, .ok du =>
    .ok ⟨n, p, e, d, t, pu, tz, du⟩
  | _, _, _, _, _, _, _, _ =>
    .error (fieldErr "name" nameR ++ fieldErr "phone" phoneR ++
            fieldErr "email" emailR ++ fieldErr "date" dateR ++
            fieldErr "time" timeR ++ fieldErr "purpose" purposeR ++
            fieldErr "timezone" timezoneR ++
            fieldErr "duration_minutes" durationR)

/-- `str(e)` of the pydantic `ValidationError`: pydantic renders every
failing field's name with its message; the exact layout is library
behaviour, abstracted as one line per field (the handler only probes this
text for field-name substrings). -/
def validationErrorStr (errs : List (String × String)) : String :=
  "validation error for AppointmentDetails\n" ++
    strJoin "\n" (errs.map (fun p => p.1 ++ ": " ++ p.2))

/-! ## `server/app/main.py` — state, calendar helper -/

/-- `models.GoogleTokenData` / the dict stored by `/auth/callback` under
the singleton key. -/
structure GoogleTokenData where
  token : String
  refresh_token : Option String
  token_uri : String
  client_id : String
  client_secret : String
  scopes : List String
deriving DecidableEq, Repr

/-- One entry of the in-memory `booked_slots` list. -/
structure BookedSlot where
  event_id : String
  name : String
  email : String
  phone : String
  date : String
  time : String
  purpose : Option String
  event_link : String
  created_at : String
deriving DecidableEq, Repr

/-- The two process-wide in-memory stores of `main.py`. -/
structure ServerState where
  token_store : List (String × GoogleTokenData)
  booked_slots : List BookedSlot
deriving DecidableEq, Repr

/-- `get_calendar_service`: requires the singleton `"default"` credential,
else raises `HTTPException(401, ...)`.  (The subsequent `Credentials`/
`build` calls are external and carry no observable state.) -/
def get_calendar_service (st : ServerState) : Except PyErr Unit :=
  if st.token_store.any (fun p => p.1 == "default") then .ok ()
  else .error (.httpException 401
    "Google Calendar not connected. Please authenticate first.")

/-- The `description` f-string of the event body. -/
def eventDescription (appt : AppointmentDetails) : String :=
  "Free Discovery Session with Vikara\n" ++
  "vikara.ai | ask@vikara.ai | +1 510 309 6846\n\n" ++
  "Client:   " ++ appt.name ++ "\n" ++
  "Phone:    " ++ appt.phone ++ "\n" ++
  "Email:    " ++ appt.email ++ "\n" ++
  "Session:  " ++ (match appt.purpose with | some s => s | none => "None") ++ "\n\n" ++
  "Offices: SF Bay Area · Bengaluru · Melbourne"

/-- The `event_body` dict passed to the provider's insert call.  Start and
end instants are kept structurally (date + minutes past midnight); the
constant reminder/visibility fields carry no claim-relevant data and the
time-zone offset rendering of `isoformat()` is provider-side. -/
structure EventBody where
  summary : String
  description : String
  startDate : Date
  startMin : Nat
  endDate : Date
  endMin : Nat
  timeZone : String
  organizer_email : String
  attendee_email : String
  attendee_name : String
deriving DecidableEq, Repr

def mkEventBody (env : Env) (appt : AppointmentDetails)
    (startDate : Date) (startMin : Nat) : EventBody :=
  let e2 := addMinutes startDate startMin appt.duration_minutes
  { summary := "Vikara Discovery Session — " ++ appt.name,
    description := eventDescription appt,
    startDate := startDate, startMin := startMin,
    endDate := e2.1, endMin := e2.2,
    timeZone := appt.timezone,
    organizer_email := env.YOUR_EMAIL,
    attendee_email := appt.email,
    attendee_name := appt.name }

/-- The dict appended to `booked_slots` on a created event. -/
def mkBookedSlot (env : Env) (appt : AppointmentDetails)
    (eventId htmlLink : String) : BookedSlot :=
  { event_id := eventId, name := appt.name, email := appt.email,
    phone := appt.phone, date := appt.date, time := appt.time,
    purpose := appt.purpose, event_link := htmlLink,
    created_at := env.nowIso }

/-- The dict returned by `create_google_calendar_event`. -/
inductive CalResult where
  | success (event_id event_link : String)
      (startDate : Date) (startMin : Nat) (endDate : Date) (endMin : Nat)
  | failure (error : String)
deriving DecidableEq, Repr

/-- `create_google_calendar_event(appt)`.  Returns the Python result or
the raised exception, the (possibly extended) server state, and the event
body handed to the provider when the insert call was reached.  The `try`
catches only `HttpError`: a missing credential's `HTTPException(401)`
propagates, a provider error containing "403"/"409" becomes a structured
failure, and any other provider error is re-raised as
`HTTPException(500, "Calendar error: ...")`.  The strptime re-parse of the
validated date/time cannot fail for a validated `appt`; its `ValueError`
branch is kept for totality. -/
def create_google_calendar_event (env : Env) (st : ServerState)
    (appt : AppointmentDetails) :
    Except PyErr CalResult × ServerState × Option EventBody :=
  match get_calendar_service st with
  | .error e => (.error e, st, none)
  | .ok _ =>
    if env.tzOk appt.timezone then
      match parseDate appt.date, parseTime appt.time with
      | some d, some tm =>
        let startMin := tm.1 * 60 + tm.2
        let e2 := addMinutes d startMin appt.duration_minutes
        let event_body := mkEventBody env appt d startMin
        match env.provider with
        | .ok eventId htmlLink =>
          (.ok (.success eventId htmlLink d startMin e2.1 e2.2),
           { st with booked_slots :=
               st.booked_slots ++ [mkBookedSlot env appt eventId htmlLink] },
           some event_body)
        | .httpError txt =>
          if strHas txt "403" then
            (.ok (.failure "Calendar permission denied. Please re-authenticate."),
             st, some event_body)
          else if strHas txt "409" then
            (.ok (.failure "Time slot conflict detected."), st, some event_body)
          else
            (.error (.httpException 500 ("Calendar error: " ++ txt)),
             st, some event_body)
      | _, _ =>
        (.error (.valueError "time data does not match format"), st, none)
    else
      (.error .exception, st, none)

/-! ## `server/app/main.py` — the tool-call endpoint -/

/-- One element of the required response envelope
`{ results: [ { toolCallId, result } ] }`. -/
structure VapiResult where
  toolCallId : Json
  result : String

/-- The response envelope of the tool endpoint. -/
structure VapiResponse where
  results : List VapiResult

/-- The local `vapi_response(message)` helper. -/
def vapi_response (tool_call_id : Json) (message : String) : VapiResponse :=
  ⟨[⟨tool_call_id, message⟩]⟩

/-- What the route ultimately produces: a 200 JSON envelope, or an
exception escaping the handler (turned into an HTTP error by the
framework). -/
inductive HandlerResult where
  | response (body : VapiResponse)
  | serverError (exc : String)

/-- The `except ValueError` classifier: lowercase `str(e)` and probe for
field-name substrings in this order. -/
def classify_value_error (msg : String) : String :=
  let error_msg := strLower msg
  if strHas error_msg "email" then
    "Invalid email address. Could you double-check your email?"
  else if strHas error_msg "phone" then
    "Invalid phone number. Could you provide a valid phone number?"
  else if strHas error_msg "date" then
    "Invalid date. Please provide a future date."
  else if strHas error_msg "time" then
    "Invalid time format. Please provide a time like 2pm or 14:00."
  else if strHas error_msg "timezone" then
    "Invalid timezone. Defaulting to Pacific Time."
  else "Invalid input: " ++ msg

/-- The three `except` clauses of the handler, applicable once
`tool_call_id` is bound (i.e. everywhere after the body parse). -/
def handle_handler_error (tool_call_id : Json) (e : PyErr) (st : ServerState)
    (sent : Option EventBody) : HandlerResult × ServerState × Option EventBody :=
  match e with
  | .valueError m =>
    (.response (vapi_response tool_call_id (classify_value_error m)), st, sent)
  | .httpException _ detail =>
    (.response (vapi_response tool_call_id detail), st, sent)
  | .exception =>
    (.response (vapi_response tool_call_id
      "Something went wrong on our end. I\x27ll try once more."), st, sent)

/-- `tool_call_id` extraction, third fallback
(`if not tool_call_id and "toolCallList" in body`).  An error carries the
value `tool_call_id` holds at the raise (the except clauses echo it). -/
def extract_tcid_step3 (body tid : Json) : Except (PyErr × Json) Json :=
  if tid.isTruthy then .ok tid
  else
    match pyIn "toolCallList" body with
    | .error e => .error (e, tid)
    | .ok false => .ok tid
    | .ok true =>
      match pySubscript body "toolCallList" with
      | .error e => .error (e, tid)
      | .ok l =>
        match pySub0 l with
        | .error e => .error (e, tid)
        | .ok t0 =>
          match t0.pyGet "id" .null with
          | .error e => .error (e, tid)
          | .ok v => .ok v

/-- `tool_call_id` extraction, second fallback
(`if not tool_call_id and "toolCall" in body`). -/
def extract_tcid_step2 (body tid : Json) : Except (PyErr × Json) Json :=
  if tid.isTruthy then extract_tcid_step3 body tid
  else
    match pyIn "toolCall" body with
    | .error e => .error (e, tid)
    | .ok false => extract_tcid_step3 body tid
    | .ok true =>
      match pySubscript body "toolCall" with
      | .error e => .error (e, tid)
      | .ok tc =>
        match tc.pyGet "id" .null with
        | .error e => .error (e, tid)
        | .ok v => extract_tcid_step3 body v

/-- Lines 352–360: `tool_call_id = None`, then
`message.toolCallList[0].id`, `toolCall.id`, `toolCallList[0].id` in
order.  An exception during extraction carries the current (falsy)
`tool_call_id`, which the catch-all clause echoes. -/
def extract_tool_call_id (body : Json) : Except (PyErr × Json) Json :=
  match pyIn "message" body with
  | .error e => .error (e, .null)
  | .ok false => extract_tcid_step2 body .null
  | .ok true =>
    match pySubscript body "message" with
    | .error e => .error (e, .null)
    | .ok m =>
      match m.pyGet "toolCallList" (.arr []) with
      | .error e => .error (e, .null)
      | .ok tcl =>
        if tcl.isTruthy then
          match pySub0 tcl with
          | .error e => .error (e, .null)
          | .ok t0 =>
            match t0.pyGet "id" .null with
            | .error e => .error (e, .null)
            | .ok tid => extract_tcid_step2 body tid
        else extract_tcid_step2 body .null

/-- Args extraction, last resort: `if not args and "name" in body and
"email" in body: args = body`.  Returns the final (possibly falsy) args. -/
def extract_args_step5 (body args : Json) : Except PyErr Json :=
  if args.isTruthy then .ok args
  else
    match pyIn "name" body with
    | .error e => .error e
    | .ok false => .ok args
    | .ok true =>
      match pyIn "email" body with
      | .error e => .error e
      | .ok false => .ok args
      | .ok true => .ok body

/-- Args extraction, fourth location: `function.arguments`. -/
def extract_args_step4 (body args : Json) : Except PyErr Json :=
  if args.isTruthy then extract_args_step5 body args
  else
    match pyIn "function" body with
    | .error e => .error e
    | .ok false => extract_args_step5 body args
    | .ok true =>
      match pySubscript body "function" with
      | .error e => .error e
      | .ok f =>
        match f.pyGet "arguments" .null with
        | .error e => .error e
        | .ok a => extract_args_step5 body a

/-- Args extraction, third location: `toolCallList[0].function.arguments`. -/
def extract_args_step3 (body args : Json) : Except PyErr Json :=
  if args.isTruthy then extract_args_step4 body args
  else
    match pyIn "toolCallList" body with
    | .error e => .error e
    | .ok false => extract_args_step4 body args
    | .ok true =>
      match pySubscript body "toolCallList" with
      | .error e => .error e
      | .ok l =>
        match pySub0 l with
        | .error e => .error e
        | .ok t0 =>
          match t0.pyGet "function" (.obj []) with
          | .error e => .error e
          | .ok f =>
            match f.pyGet "arguments" .null with
            | .error e => .error e
            | .ok a => extract_args_step4 body a

/-- Args extraction, second location: `toolCall.function.arguments`. -/
def extract_args_step2 (body args : Json) : Except PyErr Json :=
  if args.isTruthy then extract_args_step3 body args
  else
    match pyIn "toolCall" body with
    | .error e => .error e
    | .ok false => extract_args_step3 body args
    | .ok true =>
      match pySubscript body "toolCall" with
      | .error e => .error e
      | .ok tc =>
        match tc.pyGet "function" (.obj []) with
        | .error e => .error e
        | .ok f =>
          match f.pyGet "arguments" .null with
          | .error e => .error e
          | .ok a => extract_args_step3 body a

/-- Lines 381–393: `args = None`, then the chained fallbacks starting with
`message.toolCallList[0].function.arguments`. -/
def extract_args (body : Json) : Except PyErr Json :=
  match pyIn "message" body with
  | .error e => .error e
  | .ok false => extract_args_step2 body .null
  | .ok true =>
    match pySubscript body "message" with
    | .error e => .error e
    | .ok m =>
      match m.pyGet "toolCallList" (.arr []) with
      | .error e => .error e
      | .ok tcl =>
        if tcl.isTruthy then
          match pySub0 tcl with
          | .error e => .error e
          | .ok t0 =>
            match t0.pyGet "function" (.obj []) with
            | .error e => .error e
            | .ok f =>
              match f.pyGet "arguments" .null with
              | .error e => .error e
              | .ok a => extract_args_step2 body a
        else extract_args_step2 body .null

/-- `if isinstance(args, str): args = json.loads(args)`, where a
`json.JSONDecodeError` is handled locally ("Invalid data format"). -/
def decodeArgsIfStr (env : Env) (args : Json) : Option Json :=
  match args with
  | .str s => env.jsonLoads s
  | v => some v

/-- The `[f for f in ["name","phone","email","date","time"] if not
args.get(f)]` comprehension. -/
def missingFields (fs : List (String × Json)) : List String :=
  ["name", "phone", "email", "date", "time"].filter
    (fun f => !(Json.getD (.obj fs) f .null).isTruthy)

/-- Lines 426–434: run the calendar helper and turn its outcome into the
success confirmation or the echoed structured-failure message. -/
def bookDispatch (env : Env) (st : ServerState) (tool_call_id : Json)
    (appt : AppointmentDetails) : HandlerResult × ServerState × Option EventBody :=
  match create_google_calendar_event env st appt with
  | (.error e, st', sent) => handle_handler_error tool_call_id e st' sent
  | (.ok (.failure err), st', sent) =>
    (.response (vapi_response tool_call_id err), st', sent)
  | (.ok (.success _ _ _ _ _ _), st', sent) =>
    (.response (vapi_response tool_call_id
      ("Your session is booked! A calendar invite has been sent to " ++
       appt.email ++ ". We look forward to speaking with you!")), st', sent)

/-- The handler body after the successful `json.loads` (from line 352 on):
`tool_call_id` is bound, so every exception lands in one of the three
`except` clauses and is answered with the envelope. -/
def bookAfterParse (env : Env) (st : ServerState) (body : Json) :
    HandlerResult × ServerState × Option EventBody :=
  match extract_tool_call_id body with
  | .error pe => handle_handler_error pe.2 pe.1 st none
  | .ok tool_call_id =>
    match extract_args body with
    | .error e => handle_handler_error tool_call_id e st none
    | .ok args0 =>
      if !args0.isTruthy then
        (.response (vapi_response tool_call_id
          "I had trouble reading the booking details. Could you try again?"),
         st, none)
      else
        match decodeArgsIfStr env args0 with
        | none =>
          (.response (vapi_response tool_call_id
            "Invalid data format. Please try again."), st, none)
        | some args =>
          match args with
          | .obj fs =>
            let missing := missingFields fs
            if !missing.isEmpty then
              (.response (vapi_response tool_call_id
                ("I\x27m missing " ++ strJoin ", " missing ++
                 ". Could you provide those?")), st, none)
            else
              match AppointmentDetails.validate env
                  (Json.getD (.obj fs) "name" .null)
                  (Json.getD (.obj fs) "phone" .null)
                  (Json.getD (.obj fs) "email" .null)
                  (Json.getD (.obj fs) "date" .null)
                  (Json.getD (.obj fs) "time" .null)
                  (some (Json.getD (.obj fs) "purpose" (.str "Discovery Session")))
                  (some (Json.getD (.obj fs) "timezone" (.str env.DEFAULT_TIMEZONE)))
                  (some (Json.getD (.obj fs) "duration_minutes" (.num 60))) with
              | .error errs =>
                handle_handler_error tool_call_id
                  (.valueError (validationErrorStr errs)) st none
              | .ok appt => bookDispatch env st tool_call_id appt
          | _ =>
            -- non-dict args: `args.get(...)` raises AttributeError
            handle_handler_error tool_call_id .exception st none

/-- `POST /vapi/tool/book-appointment` (`book_appointment_tool`).
`json.loads(raw_body)` runs before `tool_call_id = None`; if it raises
`json.JSONDecodeError` (a `ValueError`), the `except ValueError` clause's
response expression reads the still-unbound `tool_call_id`, and the
resulting `UnboundLocalError` — raised inside an except block, hence not
caught by the sibling clauses — escapes the handler and the framework
answers 500. -/
def book_appointment_tool (env : Env) (st : ServerState) (rawBody : String) :
    HandlerResult × ServerState × Option EventBody :=
  match env.jsonLoads rawBody with
  | none => (.serverError "UnboundLocalError", st, none)
  | some body => bookAfterParse env st body

/-! ## Spec-side view of the argument extraction (claim C7)

The spec describes the extraction as an ordered fallback over five
independent locations.  Each location is written on its own here, and a
generic first-truthy combinator runs them in the spec's order; the claim
is that the handler's chained lookups implement this. -/

/-- Location 1: `message.toolCallList[0].function.arguments` (with the
handler's emptiness guard on the list). -/
def specLocMessage (body : Json) : Except PyErr Json :=
  match pyIn "message" body with
  | .error e => .error e
  | .ok false => .ok .null
  | .ok true =>
    match pySubscript body "message" with
    | .error e => .error e
    | .ok m =>
      match m.pyGet "toolCallList" (.arr []) with
      | .error e => .error e
      | .ok tcl =>
        if tcl.isTruthy then
          match pySub0 tcl with
          | .error e => .error e
          | .ok t0 =>
            match t0.pyGet "function" (.obj []) with
            | .error e => .error e
            | .ok f => f.pyGet "arguments" .null
        else .ok .null

/-- Location 2: `toolCall.function.arguments`. -/
def specLocToolCall (body : Json) : Except PyErr Json :=
  match pyIn "toolCall" body with
  | .error e => .error e
  | .ok false => .ok .null
  | .ok true =>
    match pySubscript body "toolCall" with
    | .error e => .error e
    | .ok tc =>
      match tc.pyGet "function" (.obj []) with
      | .error e => .error e
      | .ok f => f.pyGet "arguments" .null

/-- Location 3: `toolCallList[0].function.arguments`. -/
def specLocToolCallList (body : Json) : Except PyErr Json :=
  match pyIn "toolCallList" body with
  | .error e => .error e
  | .ok false => .ok .null
  | .ok true =>
    match pySubscript body "toolCallList" with
    | .error e => .error e
    | .ok l =>
      match pySub0 l with
      | .error e => .error e
      | .ok t0 =>
        match t0.pyGet "function" (.obj []) with
        | .error e => .error e
        | .ok f => f.pyGet "arguments" .null

/-- Location 4: `function.arguments`. -/
def specLocFunction (body : Json) : Except PyErr Json :=
  match pyIn "function" body with
  | .error e => .error e
  | .ok false => .ok .null
  | .ok true =>
    match pySubscript body "function" with
    | .error e => .error e
    | .ok f => f.pyGet "arguments" .null

/-- Location 5 (last resort): the whole body when it carries both `name`
and `email` keys. -/
def specLocFlat (body : Json) : Except PyErr Json :=
  match pyIn "name" body with
  | .error e => .error e
  | .ok false => .ok .null
  | .ok true =>
    match pyIn "email" body with
    | .error e => .error e
    | .ok false => .ok .null
    | .ok true => .ok body

/-- Run candidate locations in order; the first truthy result wins. -/
def firstTruthyLoc (body : Json) :
    List (Json → Except PyErr Json) → Except PyErr Json
  | [] => .ok .null
  | c :: cs =>
    match c body with
    | .error e => .error e
    | .ok v => if v.isTruthy then .ok v else firstTruthyLoc body cs

/-- The five locations in the spec's precedence order. -/
def specArgsLocations : List (Json → Except PyErr Json) :=
  [specLocMessage, specLocToolCall, specLocToolCallList, specLocFunction,
   specLocFlat]

/-- Sameness of extraction outcomes up to the choice of falsy leftover:
the chained code keeps the last falsy candidate value where the ordered
fallback keeps `None`; the handler treats every falsy value identically
(`if not args`), so outcomes are compared as equal or both-falsy. -/
def argsOutcomeEquiv (a b : Except PyErr Json) : Prop :=
  a = b ∨ ∃ v w, a = .ok v ∧ b = .ok w ∧ v.isTruthy = false ∧ w.isTruthy = false

/-! ## Concrete test fixtures (request bodies, oracle environments) -/

def st0 : ServerState := ⟨[], []⟩

def tokenFixture : GoogleTokenData :=
  { token := "tok", refresh_token := some "ref",
    token_uri := "https://oauth2.googleapis.com/token",
    client_id := "cid", client_secret := "sec",
    scopes := ["https://www.googleapis.com/auth/calendar"] }

/-- State with the singleton `"default"` credential established. -/
def stAuth : ServerState := ⟨[("default", tokenFixture)], []⟩

/-- A fully valid argument object as the voice platform would send it. -/
def wArgsFields : List (String × Json) :=
  [("name", .str "John Doe"),
   ("phone", .str "+1 (555) 123-4567"),
   ("email", .str "john@example.com"),
   ("date", .str "2026-03-15"),
   ("time", .str "14:00")]

def wArgs : Json := .obj wArgsFields

/-- The same argument object with `phone` left out. -/
def wArgsMissFields : List (String × Json) :=
  [("name", .str "John Doe"),
   ("email", .str "john@example.com"),
   ("date", .str "2026-03-15"),
   ("time", .str "14:00")]

/-- A request body in the primary `message.toolCallList` shape. -/
def wBody : Json :=
  .obj [("message", .obj [("toolCallList", .arr
    [.obj [("id", .str "tc1"), ("function", .obj [("arguments", wArgs)])]])])]

/-- Same shape, arguments missing `phone`. -/
def wBodyMissing : Json :=
  .obj [("message", .obj [("toolCallList", .arr
    [.obj [("id", .str "tc8"),
           ("function", .obj [("arguments", .obj wArgsMissFields)])]])])]

/-- A body carrying a tool-call id but no arguments anywhere. -/
def wBodyNoArgs : Json :=
  .obj [("toolCall", .obj [("id", .str "tc7")])]

/-- The validated appointment the fixtures above produce. -/
def apptFixture : AppointmentDetails :=
  { name := "John Doe", phone := "+1 (555) 123-4567",
    email := "john@example.com", date := "2026-03-15", time := "14:00",
    purpose := some "Discovery Session", timezone := "America/Los_Angeles",
    duration_minutes := 60 }

/-- Oracle environment for the concrete runs: the valid timezone set, the
valid email set, today's date and the provider reply are all fixed. -/
def wEnv : Env :=
  { jsonLoads := fun s =>
      if s == "WBODY" then some wBody
      else if s == "WBODYMISS" then some wBodyMissing
      else if s == "WBODYNOARGS" then some wBodyNoArgs
      else none,
    emailOk := fun s => s == "john@example.com",
    tzOk := fun s => s == "America/Los_Angeles",
    today := ⟨2026, 2, 1⟩,
    nowIso := "2026-02-01T09:00:00",
    provider := .ok "evt123" "https://calendar.google.com/event/evt123",
    DEFAULT_TIMEZONE := "America/Los_Angeles",
    YOUR_EMAIL := "ask@vikara.ai" }

/-! ## Helper lemmas -/

theorem leadsWith_self_append (n y : List Char) : leadsWith n (n ++ y) = true := by
  induction n with
  | nil => rfl
  | cons c t ih => simp [leadsWith, ih]

theorem occursIn_of_here (n y : List Char) : occursIn n (n ++ y) = true := by
  cases n with
  | nil =>
    cases y with
    | nil => rfl
    | cons c t => simp [occursIn, leadsWith]
  | cons c t =>
    simp only [occursIn, Bool.or_eq_true]
    exact Or.inl (leadsWith_self_append (c :: t) y)

theorem occursIn_extend (n h : List Char) (x : List Char)
    (hh : occursIn n h = true) : occursIn n (x ++ h) = true := by
  induction x with
  | nil => simpa using hh
  | cons c t ih => simp [occursIn, ih]

theorem strHas_of_decomp (hay sub : String) (x y : List Char)
    (hd : hay.data = x ++ sub.data ++ y) : strHas hay sub = true := by
  unfold strHas
  rw [hd, List.append_assoc]
  exact occursIn_extend _ _ _ (occursIn_of_here _ _)

theorem strJoin_decomp (sep : String) (l : List String) (n : String)
    (hn : n ∈ l) : ∃ x y : List Char,
    (strJoin sep l).data = x ++ n.data ++ y := by
  induction l with
  | nil => cases hn
  | cons s t ih =>
    cases t with
    | nil =>
      have hns : n = s := by simpa using hn
      subst hns
      exact ⟨[], [], by simp [strJoin]⟩
    | cons s2 t2 =>
      rcases List.mem_cons.mp hn with h | h
      · subst h
        exact ⟨[], (sep ++ strJoin sep (s2 :: t2)).data, by
          simp [strJoin, String.data_append]⟩
      · obtain ⟨x, y, hxy⟩ := ih h
        refine ⟨(s ++ sep).data ++ x, y, ?_⟩
        simp [strJoin, String.data_append, hxy]

theorem filterMap_msg_factor (pre : String) (l : List (String × String)) :
    l.filterMap (fun p => if p.2 == "" then some (pre ++ p.1) else none) =
    (l.filterMap (fun p => if p.2 == "" then some p.1 else none)).map
      (fun n => pre ++ n) := by
  induction l with
  | nil => rfl
  | cons p t ih =>
    by_cases hc : p.2 = ""
    · simp [List.filterMap_cons, hc]
      simpa using ih
    · simp [List.filterMap_cons, hc]
      simpa using ih

/-! ## Claim C3 -/

/-- C3: when the environment name is `"production"` and at least one of
the seven required settings is empty, `validate_config` fails exactly once
with a message in which every missing setting's name occurs (not only the
first); for every other environment name it succeeds no matter which
settings are absent. -/
theorem validate_config_enumerates_missing (ENVIRONMENT : String) (c : Config) :
    (ENVIRONMENT = "production" → missing_names c ≠ [] →
      ∃ msg, validate_config ENVIRONMENT c = .error msg ∧
        ∀ n ∈ missing_names c, strHas msg n = true) ∧
    (ENVIRONMENT ≠ "production" → validate_config ENVIRONMENT c = .ok ()) := by
  constructor
  · intro henv hne
    subst henv
    unfold validate_config
    rw [filterMap_msg_factor "Missing required environment variable: "]
    have hmn : (required_vars c).filterMap
        (fun p => if p.2 == "" then some p.1 else none) = missing_names c := rfl
    rw [hmn]
    have hnotempty : ((missing_names c).map
        (fun n => "Missing required environment variable: " ++ n)).isEmpty = false := by
      cases hm : missing_names c with
      | nil => exact absurd hm hne
      | cons a t => simp
    simp only [beq_self_eq_true, if_true, hnotempty]
    refine ⟨_, rfl, ?_⟩
    intro n hn
    have hmem : ("Missing required environment variable: " ++ n) ∈
        (missing_names c).map (fun m => "Missing required environment variable: " ++ m) :=
      List.mem_map_of_mem _ hn
    obtain ⟨x, y, hxy⟩ := strJoin_decomp "\n" _ _ hmem
    rw [String.data_append] at hxy
    apply strHas_of_decomp _ _
      (("Configuration validation failed:\n").data ++ x ++
        ("Missing required environment variable: ").data) y
    rw [String.data_append, hxy]
    simp [List.append_assoc]
  · intro henv
    have hb : (ENVIRONMENT == "production") = false := by
      simpa using henv
    simp [validate_config, hb]

/-- Witness for C3 at a concrete production configuration missing two
settings: the single failure message contains both names. -/
theorem validate_config_enumerates_missing_witness :
    missing_names ⟨"", "pk", "", "sec", "uri", "em", "url"⟩ ≠ [] ∧
    ∃ msg, validate_config "production" ⟨"", "pk", "", "sec", "uri", "em", "url"⟩ =
        .error msg ∧
      ∀ n ∈ missing_names ⟨"", "pk", "", "sec", "uri", "em", "url"⟩,
        strHas msg n = true :=
  ⟨by decide,
   (validate_config_enumerates_missing "production"
     ⟨"", "pk", "", "sec", "uri", "em", "url"⟩).1 rfl (by decide)⟩

/-! ## Claim C2 -/

/-- C2: a date string that parses as `YYYY-MM-DD` but lies strictly before
the current date is rejected — but with the format message, because the
"Date must be in the future" `ValueError` is swallowed by the validator's
own `except ValueError` clause; an unparseable string is rejected with the
format message, and a parseable date not before today is accepted. -/
theorem validate_date_past_date_gets_format_message :
    parseDate "2020-01-01" = some ⟨2020, 1, 1⟩ ∧
    Date.lt ⟨2020, 1, 1⟩ ⟨2026, 10, 12⟩ = true ∧
    validate_date ⟨2026, 10, 12⟩ "2020-01-01" =
      .error "Date must be in YYYY-MM-DD format" ∧
    validate_date ⟨2026, 10, 12⟩ "2026-12-01" = .ok "2026-12-01" ∧
    validate_date ⟨2026, 10, 12⟩ "12/01/2026" =
      .error "Date must be in YYYY-MM-DD format" :=
  ⟨rfl, rfl, rfl, rfl, rfl⟩

/-! ## Claim C1 -/

/-- C1: an unparseable request body does NOT produce the 200 envelope: the
`json.JSONDecodeError` lands in the `except ValueError` clause before
`tool_call_id` is ever assigned, and the clause's own response expression
then raises `UnboundLocalError`, which escapes the handler (a 500).  A
failure occurring after the body parse (here: a non-container body making
`"message" in body` raise `TypeError`) is, by contrast, absorbed into the
envelope by the catch-all clause. -/
theorem tool_endpoint_unparseable_body_escapes :
    book_appointment_tool wEnv st0 "not json" =
      (.serverError "UnboundLocalError", st0, none) ∧
    book_appointment_tool { wEnv with jsonLoads := fun _ => some (.num 5) }
        st0 "5" =
      (.response (vapi_response .null
        "Something went wrong on our end. I\x27ll try once more."), st0, none) :=
  ⟨rfl, rfl⟩

/-! ## Claim C6 -/

/-- C6: during event creation with an established credential and a
validated appointment, a provider error whose text contains "403" becomes
the structured permission-denied failure, one containing "409" (and not
"403") becomes the structured time-slot-conflict failure, and any other
provider error is escalated as `HTTPException(500, "Calendar error: ...")`
rather than a structured failure; the booked-slots list is unchanged in
all three cases. -/
theorem calendar_provider_error_classification (env : Env) (st : ServerState)
    (appt : AppointmentDetails) (txt : String) (d : Date) (tm : Nat × Nat)
    (hs : get_calendar_service st = .ok ())
    (htz : env.tzOk appt.timezone = true)
    (hd : parseDate appt.date = some d)
    (ht : parseTime appt.time = some tm)
    (hp : env.provider = .httpError txt) :
    (strHas txt "403" = true →
      create_google_calendar_event env st appt =
        (.ok (.failure "Calendar permission denied. Please re-authenticate."),
         st, some (mkEventBody env appt d (tm.1 * 60 + tm.2)))) ∧
    (strHas txt "403" = false → strHas txt "409" = true →
      create_google_calendar_event env st appt =
        (.ok (.failure "Time slot conflict detected."),
         st, some (mkEventBody env appt d (tm.1 * 60 + tm.2)))) ∧
    (strHas txt "403" = false → strHas txt "409" = false →
      create_google_calendar_event env st appt =
        (.error (.httpException 500 ("Calendar error: " ++ txt)),
         st, some (mkEventBody env appt d (tm.1 * 60 + tm.2)))) := by
  refine ⟨?_, ?_, ?_⟩
  · intro h403
    simp [create_google_calendar_event, hs, htz, hd, ht, hp, h403]
  · intro h403 h409
    simp [create_google_calendar_event, hs, htz, hd, ht, hp, h403, h409]
  · intro h403 h409
    simp [create_google_calendar_event, hs, htz, hd, ht, hp, h403, h409]

/-- Witness for C6: a concrete conflict error (text "HttpError 409:
conflict") on the fixture appointment yields the structured conflict
failure with the state unchanged. -/
theorem calendar_provider_error_classification_witness :
    create_google_calendar_event
        { wEnv with provider := .httpError "HttpError 409: conflict" }
        stAuth apptFixture =
      (.ok (.failure "Time slot conflict detected."), stAuth,
       some (mkEventBody
         { wEnv with provider := .httpError "HttpError 409: conflict" }
         apptFixture ⟨2026, 3, 15⟩ 840)) :=
  (calendar_provider_error_classification
    { wEnv with provider := .httpError "HttpError 409: conflict" }
    stAuth apptFixture "HttpError 409: conflict" ⟨2026, 3, 15⟩ (14, 0)
    rfl rfl rfl rfl rfl).2.1 rfl rfl

/-- Helper: under a parsed body whose extraction yields a truthy argument
dict with no missing required field and whose validation succeeds, the
handler reduces to the calendar dispatch. -/
theorem book_run_reaches_dispatch (env : Env) (st : ServerState)
    (rawBody : String) (body tid : Json) (fs : List (String × Json))
    (appt : AppointmentDetails)
    (h1 : env.jsonLoads rawBody = some body)
    (h2 : extract_tool_call_id body = .ok tid)
    (h3 : extract_args body = .ok (.obj fs))
    (h4 : fs ≠ [])
    (h5 : missingFields fs = [])
    (h6 : AppointmentDetails.validate env
        (Json.getD (.obj fs) "name" .null)
        (Json.getD (.obj fs) "phone" .null)
        (Json.getD (.obj fs) "email" .null)
        (Json.getD (.obj fs) "date" .null)
        (Json.getD (.obj fs) "time" .null)
        (some (Json.getD (.obj fs) "purpose" (.str "Discovery Session")))
        (some (Json.getD (.obj fs) "timezone" (.str env.DEFAULT_TIMEZONE)))
        (some (Json.getD (.obj fs) "duration_minutes" (.num 60))) = .ok appt) :
    book_appointment_tool env st rawBody = bookDispatch env st tid appt := by
  unfold book_appointment_tool
  rw [h1]
  show bookAfterParse env st body = bookDispatch env st tid appt
  unfold bookAfterParse
  rw [h2, h3]
  have htr : (Json.obj fs).isTruthy = true := by
    simp [Json.isTruthy, h4]
  simp only [htr, Bool.not_true, Bool.false_eq_true, if_false, decodeArgsIfStr]
  rw [h5]
  simp only [List.isEmpty_nil, Bool.not_true, Bool.false_eq_true, if_false]
  rw [h6]

/-! ## Claim C4 -/

/-- C4: with fully valid arguments (extraction, presence and validation
all succeed), an established credential and a successful provider insert,
the handler appends exactly one `BookedSlot` — carrying event id, name,
email, phone, date, time, purpose, event link and the UTC creation
timestamp — and answers with the confirmation naming the invited email
address. -/
theorem book_success_appends_one_slot (env : Env) (st : ServerState)
    (rawBody : String) (body tid : Json) (fs : List (String × Json))
    (appt : AppointmentDetails) (eventId htmlLink : String)
    (d : Date) (tm : Nat × Nat)
    (h1 : env.jsonLoads rawBody = some body)
    (h2 : extract_tool_call_id body = .ok tid)
    (h3 : extract_args body = .ok (.obj fs))
    (h4 : fs ≠ [])
    (h5 : missingFields fs = [])
    (h6 : AppointmentDetails.validate env
        (Json.getD (.obj fs) "name" .null)
        (Json.getD (.obj fs) "phone" .null)
        (Json.getD (.obj fs) "email" .null)
        (Json.getD (.obj fs) "date" .null)
        (Json.getD (.obj fs) "time" .null)
        (some (Json.getD (.obj fs) "purpose" (.str "Discovery Session")))
        (some (Json.getD (.obj fs) "timezone" (.str env.DEFAULT_TIMEZONE)))
        (some (Json.getD (.obj fs) "duration_minutes" (.num 60))) = .ok appt)
    (h7 : st.token_store.any (fun p => p.1 == "default") = true)
    (h8 : env.tzOk appt.timezone = true)
    (h9 : parseDate appt.date = some d)
    (h10 : parseTime appt.time = some tm)
    (h11 : env.provider = .ok eventId htmlLink) :
    book_appointment_tool env st rawBody =
      (.response (vapi_response tid
        ("Your session is booked! A calendar invite has been sent to " ++
         appt.email ++ ". We look forward to speaking with you!")),
       { st with booked_slots := st.booked_slots ++
           [{ event_id := eventId, name := appt.name, email := appt.email,
              phone := appt.phone, date := appt.date, time := appt.time,
              purpose := appt.purpose, event_link := htmlLink,
              created_at := env.nowIso }] },
       some (mkEventBody env appt d (tm.1 * 60 + tm.2))) := by
  rw [book_run_reaches_dispatch env st rawBody body tid fs appt h1 h2 h3 h4 h5 h6]
  simp [bookDispatch, create_google_calendar_event, get_calendar_service,
    h7, h8, h9, h10, h11, mkBookedSlot]

/-- Witness for C4: the concrete valid body, authenticated state and
successful provider reply produce the confirmation and append exactly the
expected slot. -/
theorem book_success_appends_one_slot_witness :
    book_appointment_tool wEnv stAuth "WBODY" =
      (.response (vapi_response (.str "tc1")
        ("Your session is booked! A calendar invite has been sent to " ++
         apptFixture.email ++ ". We look forward to speaking with you!")),
       { stAuth with booked_slots := stAuth.booked_slots ++
           [{ event_id := "evt123", name := apptFixture.name,
              email := apptFixture.email, phone := apptFixture.phone,
              date := apptFixture.date, time := apptFixture.time,
              purpose := apptFixture.purpose,
              event_link := "https://calendar.google.com/event/evt123",
              created_at := wEnv.nowIso }] },
       some (mkEventBody wEnv apptFixture ⟨2026, 3, 15⟩ 840)) :=
  book_success_appends_one_slot wEnv stAuth "WBODY" wBody (.str "tc1")
    wArgsFields apptFixture "evt123" "https://calendar.google.com/event/evt123"
    ⟨2026, 3, 15⟩ (14, 0) rfl rfl rfl (by simp [wArgsFields]) rfl rfl rfl rfl
    rfl rfl rfl

/-! ## Claim C5 -/

/-- C5: with fully valid arguments but no stored `"default"` credential,
`get_calendar_service` raises `HTTPException(401)` before any provider
call; the handler's `except HTTPException` clause echoes its detail — the
calendar-not-connected message — and the state is unchanged with no event
body ever handed to the provider. -/
theorem book_without_credential_not_connected (env : Env) (st : ServerState)
    (rawBody : String) (body tid : Json) (fs : List (String × Json))
    (appt : AppointmentDetails)
    (h1 : env.jsonLoads rawBody = some body)
    (h2 : extract_tool_call_id body = .ok tid)
    (h3 : extract_args body = .ok (.obj fs))
    (h4 : fs ≠ [])
    (h5 : missingFields fs = [])
    (h6 : AppointmentDetails.validate env
        (Json.getD (.obj fs) "name" .null)
        (Json.getD (.obj fs) "phone" .null)
        (Json.getD (.obj fs) "email" .null)
        (Json.getD (.obj fs) "date" .null)
        (Json.getD (.obj fs) "time" .null)
        (some (Json.getD (.obj fs) "purpose" (.str "Discovery Session")))
        (some (Json.getD (.obj fs) "timezone" (.str env.DEFAULT_TIMEZONE)))
        (some (Json.getD (.obj fs) "duration_minutes" (.num 60))) = .ok appt)
    (h7 : st.token_store.any (fun p => p.1 == "default") = false) :
    book_appointment_tool env st rawBody =
      (.response (vapi_response tid
        "Google Calendar not connected. Please authenticate first."),
       st, none) := by
  rw [book_run_reaches_dispatch env st rawBody body tid fs appt h1 h2 h3 h4 h5 h6]
  simp [bookDispatch, create_google_calendar_event, get_calendar_service,
    h7, handle_handler_error]

/-- Witness for C5: the same valid body against the credential-less state
answers "calendar not connected" and leaves the empty slot list empty. -/
theorem book_without_credential_not_connected_witness :
    book_appointment_tool wEnv st0 "WBODY" =
      (.response (vapi_response (.str "tc1")
        "Google Calendar not connected. Please authenticate first."),
       st0, none) :=
  book_without_credential_not_connected wEnv st0 "WBODY" wBody (.str "tc1")
    wArgsFields apptFixture rfl rfl rfl (by simp [wArgsFields]) rfl rfl rfl

/-! ## Claim C8 -/

/-- C8: when any of the five required fields is absent or empty in the
extracted arguments, the handler answers with a message listing exactly
the missing fields (all of them, joined in order) and stops — the state is
unchanged and no event body is ever built, for every provider and
validator oracle. -/
theorem missing_fields_listed_no_booking (env : Env) (st : ServerState)
    (rawBody : String) (body tid : Json) (fs : List (String × Json))
    (h1 : env.jsonLoads rawBody = some body)
    (h2 : extract_tool_call_id body = .ok tid)
    (h3 : extract_args body = .ok (.obj fs))
    (h4 : fs ≠ [])
    (h5 : missingFields fs ≠ []) :
    book_appointment_tool env st rawBody =
      (.response (vapi_response tid
        ("I\x27m missing " ++ strJoin ", " (missingFields fs) ++
         ". Could you provide those?")), st, none) := by
  unfold book_appointment_tool
  rw [h1]
  show bookAfterParse env st body = _
  unfold bookAfterParse
  rw [h2, h3]
  have htr : (Json.obj fs).isTruthy = true := by
    simp [Json.isTruthy, h4]
  have hme : (missingFields fs).isEmpty = false := by
    cases hm : missingFields fs with
    | nil => exact absurd hm h5
    | cons a t => simp
  simp only [htr, Bool.not_true, Bool.false_eq_true, if_false, decodeArgsIfStr,
    hme, Bool.not_false, if_true]

/-- Witness for C8: arguments missing `phone` produce exactly
"I\x27m missing phone. Could you provide those?" with untouched state. -/
theorem missing_fields_listed_no_booking_witness :
    book_appointment_tool wEnv stAuth "WBODYMISS" =
      (.response (vapi_response (.str "tc8")
        ("I\x27m missing " ++ strJoin ", " (missingFields wArgsMissFields) ++
         ". Could you provide those?")), stAuth, none) ∧
    missingFields wArgsMissFields = ["phone"] :=
  ⟨missing_fields_listed_no_booking wEnv stAuth "WBODYMISS" wBodyMissing
     (.str "tc8") wArgsMissFields rfl rfl rfl (by simp [wArgsMissFields])
     (by simp [missingFields, wArgsMissFields, Json.getD, Json.isTruthy]),
   rfl⟩

/-! ## Claim C7 — extraction precedence -/

theorem pyIn_true_truthy (k : String) (hk : k.data ≠ []) (body : Json)
    (h : pyIn k body = .ok true) : body.isTruthy = true := by
  cases body with
  | null => simp [pyIn] at h
  | bool b => simp [pyIn] at h
  | num n => simp [pyIn] at h
  | str s =>
    simp only [pyIn, Except.ok.injEq] at h
    by_cases hs : s = ""
    · subst hs
      rw [show strHas "" k = occursIn k.data [] from rfl] at h
      cases hd : k.data with
      | nil => exact absurd hd hk
      | cons c t => rw [hd] at h; simp [occursIn, List.isEmpty] at h
    · simp [Json.isTruthy, hs]
  | arr xs =>
    simp only [pyIn, Except.ok.injEq] at h
    cases xs with
    | nil => simp at h
    | cons a t => simp [Json.isTruthy]
  | obj fs =>
    simp only [pyIn, Except.ok.injEq] at h
    cases fs with
    | nil => simp at h
    | cons a t => simp [Json.isTruthy]

theorem extract_args_step5_truthy (body v : Json) (hv : v.isTruthy = true) :
    extract_args_step5 body v = .ok v := by
  simp [extract_args_step5, hv]

theorem extract_args_step4_truthy (body v : Json) (hv : v.isTruthy = true) :
    extract_args_step4 body v = .ok v := by
  simp [extract_args_step4, hv, extract_args_step5_truthy body v hv]

theorem extract_args_step3_truthy (body v : Json) (hv : v.isTruthy = true) :
    extract_args_step3 body v = .ok v := by
  simp [extract_args_step3, hv, extract_args_step4_truthy body v hv]

theorem extract_args_step2_truthy (body v : Json) (hv : v.isTruthy = true) :
    extract_args_step2 body v = .ok v := by
  simp [extract_args_step2, hv, extract_args_step3_truthy body v hv]

theorem extract_args_step5_equiv (body v : Json) (hv : v.isTruthy = false) :
    argsOutcomeEquiv (extract_args_step5 body v)
      (firstTruthyLoc body [specLocFlat]) := by
  unfold extract_args_step5 firstTruthyLoc specLocFlat
  rw [hv]
  simp only [Bool.false_eq_true, if_false]
  cases h1 : pyIn "name" body with
  | error e => exact Or.inl rfl
  | ok b1 =>
    cases b1 with
    | false => exact Or.inr ⟨v, .null, rfl, rfl, hv, rfl⟩
    | true =>
      try dsimp only
      cases h2 : pyIn "email" body with
      | error e => exact Or.inl rfl
      | ok b2 =>
        cases b2 with
        | false => exact Or.inr ⟨v, .null, rfl, rfl, hv, rfl⟩
        | true =>
          try dsimp only
          have hb : body.isTruthy = true :=
            pyIn_true_truthy "name" (by decide) body h1
          rw [hb]
          exact Or.inl rfl

theorem extract_args_step4_equiv (body v : Json) (hv : v.isTruthy = false) :
    argsOutcomeEquiv (extract_args_step4 body v)
      (firstTruthyLoc body [specLocFunction, specLocFlat]) := by
  unfold extract_args_step4 firstTruthyLoc specLocFunction
  rw [hv]
  simp only [Bool.false_eq_true, if_false]
  cases h1 : pyIn "function" body with
  | error e => exact Or.inl rfl
  | ok b1 =>
    cases b1 with
    | false => exact extract_args_step5_equiv body v hv
    | true =>
      try dsimp only
      cases h2 : pySubscript body "function" with
      | error e => exact Or.inl rfl
      | ok f =>
        try dsimp only
        cases h3 : f.pyGet "arguments" .null with
        | error e => exact Or.inl rfl
        | ok a =>
          try dsimp only
          cases ha : a.isTruthy with
          | true => exact Or.inl (extract_args_step5_truthy body a ha)
          | false => exact extract_args_step5_equiv body a ha

theorem extract_args_step3_equiv (body v : Json) (hv : v.isTruthy = false) :
    argsOutcomeEquiv (extract_args_step3 body v)
      (firstTruthyLoc body [specLocToolCallList, specLocFunction, specLocFlat]) := by
  unfold extract_args_step3 firstTruthyLoc specLocToolCallList
  rw [hv]
  simp only [Bool.false_eq_true, if_false]
  cases h1 : pyIn "toolCallList" body with
  | error e => exact Or.inl rfl
  | ok b1 =>
    cases b1 with
    | false => exact extract_args_step4_equiv body v hv
    | true =>
      try dsimp only
      cases h2 : pySubscript body "toolCallList" with
      | error e => exact Or.inl rfl
      | ok l =>
        try dsimp only
        cases h3 : pySub0 l with
        | error e => exact Or.inl rfl
        | ok t0 =>
          try dsimp only
          cases h4 : t0.pyGet "function" (.obj []) with
          | error e => exact Or.inl rfl
          | ok f =>
            try dsimp only
            cases h5 : f.pyGet "arguments" .null with
            | error e => exact Or.inl rfl
            | ok a =>
              try dsimp only
              cases ha : a.isTruthy with
              | true => exact Or.inl (extract_args_step4_truthy body a ha)
              | false => exact extract_args_step4_equiv body a ha

theorem extract_args_step2_equiv (body v : Json) (hv : v.isTruthy = false) :
    argsOutcomeEquiv (extract_args_step2 body v)
      (firstTruthyLoc body
        [specLocToolCall, specLocToolCallList, specLocFunction, specLocFlat]) := by
  unfold extract_args_step2 firstTruthyLoc specLocToolCall
  rw [hv]
  simp only [Bool.false_eq_true, if_false]
  cases h1 : pyIn "toolCall" body with
  | error e => exact Or.inl rfl
  | ok b1 =>
    cases b1 with
    | false => exact extract_args_step3_equiv body v hv
    | true =>
      try dsimp only
      cases h2 : pySubscript body "toolCall" with
      | error e => exact Or.inl rfl
      | ok tc =>
        try dsimp only
        cases h3 : tc.pyGet "function" (.obj []) with
        | error e => exact Or.inl rfl
        | ok f =>
          try dsimp only
          cases h4 : f.pyGet "arguments" .null with
          | error e => exact Or.inl rfl
          | ok a =>
            try dsimp only
            cases ha : a.isTruthy with
            | true => exact Or.inl (extract_args_step3_truthy body a ha)
            | false => exact extract_args_step3_equiv body a ha

/-- Helper for C7: the handler's chained argument lookups agree with the
ordered first-truthy fallback over the five spec locations (up to the
choice of falsy leftover, which the handler never distinguishes). -/
theorem extract_args_matches_ordered_fallback (body : Json) :
    argsOutcomeEquiv (extract_args body)
      (firstTruthyLoc body specArgsLocations) := by
  unfold extract_args specArgsLocations firstTruthyLoc specLocMessage
  cases h1 : pyIn "message" body with
  | error e => exact Or.inl rfl
  | ok b1 =>
    cases b1 with
    | false => exact extract_args_step2_equiv body .null rfl
    | true =>
      try dsimp only
      cases h2 : pySubscript body "message" with
      | error e => exact Or.inl rfl
      | ok m =>
        try dsimp only
        cases h3 : m.pyGet "toolCallList" (.arr []) with
        | error e => exact Or.inl rfl
        | ok tcl =>
          try dsimp only
          cases htcl : tcl.isTruthy with
          | false => exact extract_args_step2_equiv body .null rfl
          | true =>
            simp only [eq_self_iff_true, if_true]
            cases h4 : pySub0 tcl with
            | error e => exact Or.inl rfl
            | ok t0 =>
              try dsimp only
              cases h5 : t0.pyGet "function" (.obj []) with
              | error e => exact Or.inl rfl
              | ok f =>
                try dsimp only
                cases h6 : f.pyGet "arguments" .null with
                | error e => exact Or.inl rfl
                | ok a =>
                  try dsimp only
                  cases ha : a.isTruthy with
                  | true => exact Or.inl (extract_args_step2_truthy body a ha)
                  | false => exact extract_args_step2_equiv body a ha

/-- C7: the handler extracts arguments by the exact precedence
`message.toolCallList[0].function.arguments`, `toolCall.function.arguments`,
`toolCallList[0].function.arguments`, `function.arguments`, then the whole
body when it holds both `name` and `email`; and when no location yields
(truthy) arguments it replies asking the caller to repeat the details,
echoing whatever tool-call identifier was discoverable. -/
theorem extract_args_precedence_and_no_args_reply :
    (∀ body, argsOutcomeEquiv (extract_args body)
      (firstTruthyLoc body specArgsLocations)) ∧
    (∀ (env : Env) (st : ServerState) (rawBody : String) (body tid v : Json),
      env.jsonLoads rawBody = some body →
      extract_tool_call_id body = .ok tid →
      extract_args body = .ok v → v.isTruthy = false →
      book_appointment_tool env st rawBody =
        (.response (vapi_response tid
          "I had trouble reading the booking details. Could you try again?"),
         st, none)) := by
  constructor
  · exact extract_args_matches_ordered_fallback
  · intro env st rawBody body tid v h1 h2 h3 h4
    unfold book_appointment_tool
    rw [h1]
    show bookAfterParse env st body = _
    unfold bookAfterParse
    rw [h2, h3]
    dsimp only
    rw [h4]
    rfl

/-- Witness for C7: a body with a `toolCall.id` but no arguments anywhere
satisfies both parts — the extraction agrees with the ordered fallback and
the handler asks to repeat the details, echoing `"tc7"`. -/
theorem extract_args_precedence_and_no_args_reply_witness :
    argsOutcomeEquiv (extract_args wBodyNoArgs)
      (firstTruthyLoc wBodyNoArgs specArgsLocations) ∧
    book_appointment_tool { wEnv with jsonLoads := fun _ => some wBodyNoArgs }
        st0 "x" =
      (.response (vapi_response (.str "tc7")
        "I had trouble reading the booking details. Could you try again?"),
       st0, none) :=
  ⟨extract_args_precedence_and_no_args_reply.1 wBodyNoArgs,
   extract_args_precedence_and_no_args_reply.2
     { wEnv with jsonLoads := fun _ => some wBodyNoArgs } st0 "x" wBodyNoArgs
     (.str "tc7") .null rfl rfl rfl rfl⟩

/-! ## Claim C9 -/

theorem getD_of_absent (fs : List (String × Json)) (k : String) (dflt : Json)
    (h : fs.find? (fun q => q.1 == k) = none) :
    Json.getD (.obj fs) k dflt = dflt := by
  simp [Json.getD, h]

/-- C9: `duration_minutes` is constrained to 15–480 inclusive with a
model-level default of 30 on `AppointmentDetails`' own default path, while
the tool-call handler substitutes 60 when the argument key is absent (and
likewise defaults `purpose` to "Discovery Session" and `timezone` to the
configured default), as witnessed by the appointment it validates and then
books. -/
theorem duration_defaults_and_bounds :
    (∀ (env : Env) (n p e d t : Json) (pu tz : Option Json)
       (appt : AppointmentDetails),
      AppointmentDetails.validate env n p e d t pu tz none = .ok appt →
      appt.duration_minutes = 30) ∧
    (∀ (env : Env) (n p e d t : Json) (pu tz : Option Json) (k : Int)
       (appt : AppointmentDetails),
      AppointmentDetails.validate env n p e d t pu tz (some (.num k)) = .ok appt →
      15 ≤ k ∧ k ≤ 480 ∧ appt.duration_minutes = k) ∧
    (∀ (env : Env) (st : ServerState) (rawBody : String) (body tid : Json)
       (fs : List (String × Json)) (appt : AppointmentDetails),
      env.jsonLoads rawBody = some body →
      extract_tool_call_id body = .ok tid →
      extract_args body = .ok (.obj fs) →
      fs ≠ [] →
      missingFields fs = [] →
      fs.find? (fun q => q.1 == "duration_minutes") = none →
      fs.find? (fun q => q.1 == "purpose") = none →
      fs.find? (fun q => q.1 == "timezone") = none →
      AppointmentDetails.validate env
        (Json.getD (.obj fs) "name" .null)
        (Json.getD (.obj fs) "phone" .null)
        (Json.getD (.obj fs) "email" .null)
        (Json.getD (.obj fs) "date" .null)
        (Json.getD (.obj fs) "time" .null)
        (some (Json.getD (.obj fs) "purpose" (.str "Discovery Session")))
        (some (Json.getD (.obj fs) "timezone" (.str env.DEFAULT_TIMEZONE)))
        (some (Json.getD (.obj fs) "duration_minutes" (.num 60))) = .ok appt →
      appt.duration_minutes = 60 ∧ appt.purpose = some "Discovery Session" ∧
        appt.timezone = env.DEFAULT_TIMEZONE ∧
        book_appointment_tool env st rawBody = bookDispatch env st tid appt) := by
  refine ⟨?_, ?_, ?_⟩
  · intro env n p e d t pu tz appt h
    dsimp only [AppointmentDetails.validate] at h
    split at h
    · rename_i nn pp ee dd tt ppu ttz ddu hn hp he hd ht hpu htz hdu
      have hdu30 : (Except.ok (30 : Int) : Except String Int) = .ok ddu := hdu
      have : ddu = 30 := by
        cases hdu30
        rfl
      cases h
      exact this
    · simp at h
  · intro env n p e d t pu tz k appt h
    dsimp only [AppointmentDetails.validate] at h
    split at h
    · rename_i nn pp ee dd tt ppu ttz ddu hn hp he hd ht hpu htz hdu
      split at hdu
      · simp at hdu
      · split at hdu
        · simp at hdu
        · have hkd : k = ddu := by
            cases hdu
            rfl
          cases h
          refine ⟨by omega, by omega, ?_⟩
          show ddu = k
          omega
    · simp at h
  · intro env st rawBody body tid fs appt h1 h2 h3 h4 h5 hkdur hkpur hktz h6
    rw [getD_of_absent fs "duration_minutes" (.num 60) hkdur,
        getD_of_absent fs "purpose" (.str "Discovery Session") hkpur,
        getD_of_absent fs "timezone" (.str env.DEFAULT_TIMEZONE) hktz] at h6
    have hrun : book_appointment_tool env st rawBody = bookDispatch env st tid appt := by
      apply book_run_reaches_dispatch env st rawBody body tid fs appt h1 h2 h3 h4 h5
      rw [getD_of_absent fs "duration_minutes" (.num 60) hkdur,
          getD_of_absent fs "purpose" (.str "Discovery Session") hkpur,
          getD_of_absent fs "timezone" (.str env.DEFAULT_TIMEZONE) hktz]
      exact h6
    dsimp only [AppointmentDetails.validate] at h6
    split at h6
    · rename_i nn pp ee dd tt ppu ttz ddu hn hp he hd ht hpu htz hdu
      split at hdu
      · simp at hdu
      · split at hdu
        · simp at hdu
        · have hd60 : ddu = 60 := by
            cases hdu
            rfl
          split at hpu
          · simp at hpu
          · have hps : ppu = some "Discovery Session" := by
              cases hpu
              rfl
            have htzv :
                (if env.tzOk env.DEFAULT_TIMEZONE = true
                  then Except.ok env.DEFAULT_TIMEZONE
                  else Except.error ("Invalid timezone: " ++ env.DEFAULT_TIMEZONE)) =
                  Except.ok ttz := htz
            split at htzv
            · have htzs : ttz = env.DEFAULT_TIMEZONE := by
                cases htzv
                rfl
              cases h6
              exact ⟨hd60, hps, htzs, hrun⟩
            · simp at htzv
    · simp at h6

/-- Witness for C9: the model's own default path yields 30, an explicit 60
is accepted within 15–480, and the handler run with the duration, purpose
and timezone keys absent books the 60-minute default appointment. -/
theorem duration_defaults_and_bounds_witness :
    ({ apptFixture with duration_minutes := 30 } :
      AppointmentDetails).duration_minutes = 30 ∧
    ((15 : Int) ≤ 60 ∧ (60 : Int) ≤ 480 ∧ apptFixture.duration_minutes = 60) ∧
    (apptFixture.duration_minutes = 60 ∧
      apptFixture.purpose = some "Discovery Session" ∧
      apptFixture.timezone = wEnv.DEFAULT_TIMEZONE ∧
      book_appointment_tool wEnv stAuth "WBODY" =
        bookDispatch wEnv stAuth (.str "tc1") apptFixture) :=
  ⟨duration_defaults_and_bounds.1 wEnv (.str "John Doe")
     (.str "+1 (555) 123-4567") (.str "john@example.com") (.str "2026-03-15")
     (.str "14:00") (some (.str "Discovery Session"))
     (some (.str "America/Los_Angeles"))
     { apptFixture with duration_minutes := 30 } rfl,
   duration_defaults_and_bounds.2.1 wEnv (.str "John Doe")
     (.str "+1 (555) 123-4567") (.str "john@example.com") (.str "2026-03-15")
     (.str "14:00") (some (.str "Discovery Session"))
     (some (.str "America/Los_Angeles")) 60 apptFixture rfl,
   duration_defaults_and_bounds.2.2 wEnv stAuth "WBODY" wBody (.str "tc1")
     wArgsFields apptFixture rfl rfl rfl (by simp [wArgsFields]) rfl rfl rfl
     rfl rfl⟩
